import Mathlib

/-!
Shallow embedding of the booking coordination core of the
High-Concurrency Ticketing Backend (Go).  Each definition mirrors one Go
function; the repository layer (Postgres queries) is modelled as pure
transformations of an explicit database value, Redis as association
lists, Kafka publishes and outgoing e-mails as append-only logs.
-/

namespace Ticketing

/-- Lookup in a string-keyed association list (Redis `GET`). -/
def kvGet {α : Type} (m : List (String × α)) (k : String) : Option α :=
  (m.find? (fun p => p.fst == k)).map Prod.snd

/-- Set in a string-keyed association list (Redis `SET`): replaces the
first binding for the key, or appends when absent. -/
def kvSet {α : Type} (m : List (String × α)) (k : String) (v : α) :
    List (String × α) :=
  match m with
  | [] => [(k, v)]
  | p :: rest => if p.fst == k then (k, v) :: rest else p :: kvSet rest k v

/-- Delete from a string-keyed association list (Redis `DEL`). -/
def kvDel {α : Type} (m : List (String × α)) (k : String) : List (String × α) :=
  m.filter (fun p => p.fst != k)

/-! ## Inventory counter (C1) — `TokenBucket`, src/unnamed/part_004 -/

/-- `TokenBucket.key`: `"event_tokens:" + eventID`. -/
def tbKey (eventId : String) : String := "event_tokens:" ++ eventId

/-- Value read by the reserve Lua script and by `Remaining`:
`GET key or '0'` — a missing key counts as 0. -/
def tbGet (tokens : List (String × Int)) (eventId : String) : Int :=
  (kvGet tokens (tbKey eventId)).getD 0

/-- `TokenBucket.Reserve`: the atomic Lua script.  If `current >= n`,
`DECRBY n` and return admitted; else return refused without mutation. -/
def tbReserve (tokens : List (String × Int)) (eventId : String) (n : Int) :
    Bool × List (String × Int) :=
  let current := tbGet tokens eventId
  if n ≤ current then (true, kvSet tokens (tbKey eventId) (current - n))
  else (false, tokens)

/-- `TokenBucket.Release`: `INCRBY n` (a missing key counts as 0). -/
def tbRelease (tokens : List (String × Int)) (eventId : String) (n : Int) :
    List (String × Int) :=
  kvSet tokens (tbKey eventId) (tbGet tokens eventId + n)

/-- `TokenBucket.InitTokens`: `SET key capacity`. -/
def tbInit (tokens : List (String × Int)) (eventId : String) (capacity : Int) :
    List (String × Int) :=
  kvSet tokens (tbKey eventId) capacity

/-- `TokenBucket.Remaining`: current value, 0 if unknown. -/
def tbRemaining (tokens : List (String × Int)) (eventId : String) : Int :=
  tbGet tokens eventId

/-! ## Timeout registry (C7) — `TimeoutBucket`, internal/redis/bookingTimeout.go -/

/-- `TimeoutBucket` key: `eventID + ":" + bookingID`. -/
def toKey (eventId bookingId : String) : String := eventId ++ ":" ++ bookingId

/-- `TimeoutBucket.AddBooking`: `SET key "processing"`. -/
def timeoutAdd (m : List (String × String)) (eventId bookingId : String) :
    List (String × String) :=
  kvSet m (toKey eventId bookingId) "processing"

/-- `TimeoutBucket.GetBooking`: a missing key reads as `"processing"`. -/
def timeoutGet (m : List (String × String)) (eventId bookingId : String) : String :=
  (kvGet m (toKey eventId bookingId)).getD "processing"

/-- `TimeoutBucket.DeleteBooking`. -/
def timeoutDel (m : List (String × String)) (eventId bookingId : String) :
    List (String × String) :=
  kvDel m (toKey eventId bookingId)

/-! ## Data model (rows of the partitioned Postgres schema) -/

/-- Row of `events` (internal/store/events/events.go), restricted to the
fields the booking core reads.  Money (Go float64; integral in every
path the claims exercise) is modelled as `Int`. -/
structure Event where
  id : String
  name : String
  endTime : Int
  capacity : Int
  reserved : Int
  status : String
  ticketPrice : Int
  cancellationFee : Int
  maxTicketsPerBooking : Int
deriving Repr, DecidableEq

/-- Row of `bookings` (src/unnamed/part_010).  The Go `Seats []byte`
JSON column is modelled by its decoded list of seat labels. -/
structure Booking where
  id : String
  userId : String
  eventId : String
  status : String
  seats : List String
  idempotencyKey : Option String
  amountPaid : Int
  paymentStatus : String
deriving Repr, DecidableEq

/-- Row of `seats` (internal/store/seats/seats.go). -/
structure Seat where
  eventId : String
  label : String
  status : String
  heldByBooking : Option String
deriving Repr, DecidableEq

/-- Row of `waitlist` (internal/store/waitlist/waitlist.go). -/
structure WaitlistEntry where
  id : String
  eventId : String
  userId : String
  position : Int
  optedOut : Bool
deriving Repr, DecidableEq

/-- Row of `users`, restricted to what the mailer paths read. -/
structure User where
  id : String
  email : String
deriving Repr, DecidableEq

/-- The relational state shared by the repositories. -/
structure DB where
  events : List Event
  bookings : List Booking
  seats : List Seat
  waitlist : List WaitlistEntry
  users : List User
deriving Repr, DecidableEq

/-! ## Repository operations -/

/-- `EventsRepository.Get`: `SELECT ... FROM events WHERE id = $1`. -/
def eventsGet (db : DB) (id : String) : Option Event :=
  db.events.find? (fun e => e.id == id)

/-- `EventsRepository.UpdateStatus`. -/
def eventsUpdateStatus (db : DB) (id status : String) : DB :=
  { db with events :=
      db.events.map (fun e => if e.id == id then { e with status := status } else e) }

/-- `UsersRepository.GetByID` (nil on no rows). -/
def usersGet (db : DB) (id : String) : Option User :=
  db.users.find? (fun u => u.id == id)

/-- `BookingsRepository.GetByID` (nil on no rows). -/
def getByID (db : DB) (id : String) : Option Booking :=
  db.bookings.find? (fun b => b.id == id)

/-- `BookingsRepository.GetByIdempotency`:
`SELECT ... WHERE idempotency_key = $1` (a NULL key never matches). -/
def getByIdempotency (db : DB) (key : String) : Option Booking :=
  db.bookings.find? (fun b => b.idempotencyKey == some key)

/-- `BookingsRepository.CreatePending`: insert with status `pending`,
payment `pending`.  The database-generated row id is passed in. -/
def createPending (db : DB) (userId eventId : String) (idempotencyKey : Option String)
    (seats : List String) (newId : String) : DB × Booking :=
  let b : Booking :=
    { id := newId, userId := userId, eventId := eventId, status := "pending",
      seats := seats, idempotencyKey := idempotencyKey,
      amountPaid := 0, paymentStatus := "pending" }
  ({ db with bookings := db.bookings ++ [b] }, b)

/-- `BookingsRepository.UpdatePaymentStatus` (ErrNoRows when the booking
is absent). -/
def updatePaymentStatus (db : DB) (id paymentStatus : String) (amountPaid : Int) :
    Option DB :=
  if db.bookings.any (fun b => b.id == id) then
    some { db with bookings :=
      db.bookings.map (fun b =>
        if b.id == id then { b with paymentStatus := paymentStatus, amountPaid := amountPaid }
        else b) }
  else none

/-- One seat-row `UPDATE` of `CancelBookingTx`: release the `(event, label)`
seat back to `available` and clear its back-reference. -/
def releaseSeatRow (eventId label : String) (st : Seat) : Seat :=
  if st.eventId == eventId && st.label == label then
    { st with status := "available", heldByBooking := none }
  else st

/-- One seat-row `UPDATE` of `FinalizeBooking`: mark the `(event, label)`
seat `booked` and bind it to the booking. -/
def bookSeatRow (bookingId eventId label : String) (st : Seat) : Seat :=
  if st.eventId == eventId && st.label == label then
    { st with status := "booked", heldByBooking := some bookingId }
  else st

/-- `BookingsRepository.CancelBookingTx`: read the booking, set its status
to `cancelled`; when its prior status was `booked`, also decrement the
event's `reserved` counter and release its seat rows.  Returns the
(post-commit) booking record and the `wasBooked` flag. -/
def cancelBookingTx (db : DB) (bookingId : String) :
    Option (DB × Booking × Bool) :=
  match getByID db bookingId with
  | none => none
  | some b =>
    let wasBooked := b.status == "booked"
    let bookings1 := db.bookings.map (fun x =>
      if x.id == bookingId then { x with status := "cancelled" } else x)
    let db1 : DB := { db with bookings := bookings1 }
    let db2 : DB :=
      if wasBooked then
        let events1 := db1.events.map (fun e =>
          if e.id == b.eventId then { e with reserved := e.reserved - 1 } else e)
        let seats1 :=
          b.seats.foldl (fun acc l => acc.map (releaseSeatRow b.eventId l)) db1.seats
        { db1 with events := events1, seats := seats1 }
      else db1
    some (db2, { b with status := "cancelled" }, wasBooked)

/-- `BookingsRepository.FinalizeBooking`: look up the booking's event;
update the booking row only `WHERE status = 'pending'`; then
(unconditionally) mark the listed seat rows `booked` and increment the
event's `reserved` counter. -/
def finalizeBooking (db : DB) (bookingId : String) (seats : List String)
    (amountPaid : Int) : Option DB :=
  match getByID db bookingId with
  | none => none
  | some b =>
    let eventId := b.eventId
    let bookings1 := db.bookings.map (fun x =>
      if x.id == bookingId && x.status == "pending" then
        { x with status := "booked", seats := seats,
                 amountPaid := amountPaid, paymentStatus := "paid" }
      else x)
    let db1 : DB := { db with bookings := bookings1 }
    let seats1 :=
      seats.foldl (fun acc l => acc.map (bookSeatRow bookingId eventId l)) db1.seats
    let db2 : DB := { db1 with seats := seats1 }
    let events1 := db2.events.map (fun e =>
      if e.id == eventId then { e with reserved := e.reserved + 1 } else e)
    some { db2 with events := events1 }

/-- `WaitlistRepository.Add`: position is `max(position) over the
non-opted-out entries of the event (0 when empty) + 1`. -/
def waitlistAdd (db : DB) (eventId userId newId : String) : DB × Int :=
  let position :=
    ((db.waitlist.filter (fun w => w.eventId == eventId && !w.optedOut)).foldl
      (fun m w => max m w.position) 0) + 1
  let e : WaitlistEntry :=
    { id := newId, eventId := eventId, userId := userId,
      position := position, optedOut := false }
  ({ db with waitlist := db.waitlist ++ [e] }, position)

/-- `WaitlistRepository.NextActive`: smallest-position non-opted-out entry
of the event (`ORDER BY position ASC LIMIT 1`). -/
def nextActive (db : DB) (eventId : String) : Option WaitlistEntry :=
  (db.waitlist.filter (fun w => w.eventId == eventId && !w.optedOut)).foldl
    (fun acc w =>
      match acc with
      | none => some w
      | some best => if w.position < best.position then some w else some best)
    none

/-- `WaitlistRepository.Remove`. -/
def waitlistRemove (db : DB) (id : String) : DB :=
  { db with waitlist := db.waitlist.filter (fun w => w.id != id) }

/-- Number of bookings of an event currently in status `booked`
(the quantity bounded by spec invariant 1). -/
def bookedCount (db : DB) (eventId : String) : Nat :=
  (db.bookings.filter (fun b => b.eventId == eventId && b.status == "booked")).length

/-! ## System state: database, Redis stores, and outbound effects -/

/-- A message published to the `bookings` Kafka topic
(the payload of `BookingsService.Create` / the promotion paths). -/
structure KafkaMsg where
  key : String
  typ : String
  bookingId : String
  eventId : String
  userId : String
  seats : List String
  idempotencyKey : Option String
deriving Repr, DecidableEq

/-- An outbound e-mail, recorded by recipient address and kind. -/
structure Email where
  toAddr : String
  kind : String
deriving Repr, DecidableEq

/-- Whole-system state: the relational database, the Redis token and
timeout stores, and append-only logs of published messages and sent
e-mails. -/
structure Sys where
  db : DB
  tokens : List (String × Int)
  timeouts : List (String × String)
  kafka : List KafkaMsg
  emails : List Email
deriving Repr, DecidableEq

/-! ## Booking coordinator (C5) — `BookingsService`, src/unnamed/part_005 -/

/-- Outcome of `BookingsService.Create`, tagging the Go `(resp, code, err)`
triple. -/
inductive CreateResult where
  /-- `404 "event not found"`. -/
  | errEventNotFound
  /-- `400 "event is expired"` (the event's status was updated). -/
  | errExpired
  /-- `400 "cannot book more than %d tickets"`. -/
  | errTooMany
  /-- `200`: idempotency replay of an existing booking. -/
  | replay (bookingId status : String)
  /-- `202 {booking_id, status: "pending"}`: admitted. -/
  | pending (bookingId : String)
  /-- `200 {status: "waitlisted", position}`: refused and waitlisted. -/
  | waitlisted (position : Int)
deriving Repr, DecidableEq

/-- HTTP status code attached to each `CreateResult` by the Go service. -/
def CreateResult.httpCode : CreateResult → Int
  | .errEventNotFound => 404
  | .errExpired => 400
  | .errTooMany => 400
  | .replay _ _ => 200
  | .pending _ => 202
  | .waitlisted _ => 200

/-- `BookingsService.Create`.  `now` is the clock read by
`time.Now()`; `newBookingId`/`newWaitlistId` are the database-generated
identifiers of the rows the call may insert. -/
def svcCreate (s : Sys) (now : Int) (eventId userId : String)
    (idempotencyKey : Option String) (seats : List String)
    (newBookingId newWaitlistId : String) : Sys × CreateResult :=
  match eventsGet s.db eventId with
  | none => (s, .errEventNotFound)
  | some event =>
    if event.endTime < now then
      ({ s with db := eventsUpdateStatus s.db eventId "expired" }, .errExpired)
    else if (seats.length : Int) > event.maxTicketsPerBooking then
      (s, .errTooMany)
    else
      let replayHit :=
        match idempotencyKey with
        | some k => if k ≠ "" then getByIdempotency s.db k else none
        | none => none
      match replayHit with
      | some b => (s, .replay b.id b.status)
      | none =>
        let r := tbReserve s.tokens eventId (seats.length : Int)
        if r.fst then
          let c := createPending s.db userId eventId idempotencyKey seats newBookingId
          let msg : KafkaMsg :=
            { key := eventId, typ := "finalize_booking", bookingId := c.snd.id,
              eventId := eventId, userId := userId, seats := seats,
              idempotencyKey := idempotencyKey }
          ({ s with db := c.fst, tokens := r.snd, kafka := s.kafka ++ [msg] },
           .pending c.snd.id)
        else
          let w := waitlistAdd s.db eventId userId newWaitlistId
          ({ s with db := w.fst, tokens := r.snd }, .waitlisted w.snd)

/-- `BookingsService.Cancel`.  Returns the evolved system state and, on
success, the `(booking_id, status)` response; `none` is any error return
(booking absent or, under `wasBooked`, a missing event or user — where
the Go would error or dereference nil).  `promoBookingId` is the id of
the pending booking a waitlist promotion may insert. -/
def svcCancel (s : Sys) (bookingId promoBookingId : String) :
    Sys × Option (String × String) :=
  match cancelBookingTx s.db bookingId with
  | none => (s, none)
  | some (db', ret, wasBooked) =>
    let s1 : Sys := { s with db := db' }
    if wasBooked then
      let seatCount : Int := if ret.seats.length == 0 then 1 else (ret.seats.length : Int)
      let s2 : Sys := { s1 with tokens := tbRelease s1.tokens ret.eventId seatCount }
      match eventsGet s2.db ret.eventId with
      | none => (s2, none)
      | some _event =>
        match usersGet s2.db ret.userId with
        | none => (s2, none)
        | some user =>
          let s3 : Sys :=
            { s2 with emails := s2.emails ++ [{ toAddr := user.email, kind := "cancellation" }] }
          match nextActive s3.db ret.eventId with
          | none => (s3, some (ret.id, ret.status))
          | some entry =>
            if entry.userId ≠ "" then
              let c := createPending s3.db entry.userId ret.eventId none ret.seats promoBookingId
              let msg : KafkaMsg :=
                { key := ret.eventId, typ := "finalize_booking", bookingId := c.snd.id,
                  eventId := ret.eventId, userId := entry.userId, seats := ret.seats,
                  idempotencyKey := c.snd.idempotencyKey }
              let db3 := waitlistRemove c.fst entry.id
              let s4 : Sys := { s3 with db := db3, kafka := s3.kafka ++ [msg] }
              match usersGet s4.db entry.userId with
              | none => (s4, none)
              | some promoted =>
                ({ s4 with emails :=
                    s4.emails ++ [{ toAddr := promoted.email, kind := "waitlist_promotion" }] },
                 some (ret.id, ret.status))
            else (s3, some (ret.id, ret.status))
    else (s1, some (ret.id, ret.status))

/-! ## Payment callback (C3) — `PaymentService`, src/unnamed/part_007 -/

/-- Outcome of `PaymentService.ProcessBookingPayment`. -/
inductive PayResult where
  | errNotFound
  | errAlreadyPaid
  | errOtherStatus (status : String)
  | errEventNotFound
  | errInvalidAmount
  | errUpdate
  | errFinalize
  | success (bookingId : String)
deriving Repr, DecidableEq

/-- `PaymentService.ProcessBookingPayment` (the `GET /v1/payment/booking`
callback).  Never touches the timeout registry. -/
def processBookingPayment (s : Sys) (bookingId : String) (amount : Int) :
    Sys × PayResult :=
  match getByID s.db bookingId with
  | none => (s, .errNotFound)
  | some b =>
    if b.status ≠ "pending" then
      if b.status == "booked" then (s, .errAlreadyPaid)
      else (s, .errOtherStatus b.status)
    else
      match eventsGet s.db b.eventId with
      | none => (s, .errEventNotFound)
      | some event =>
        let seats := if b.seats.length == 0 then ["seat1"] else b.seats
        let expected := event.ticketPrice * (seats.length : Int)
        if amount < expected then (s, .errInvalidAmount)
        else
          match updatePaymentStatus s.db bookingId "paid" amount with
          | none => (s, .errUpdate)
          | some db1 =>
            match finalizeBooking db1 bookingId seats amount with
            | none => ({ s with db := db1 }, .errFinalize)
            | some db2 => ({ s with db := db2 }, .success bookingId)

/-! ## Finalize worker (C6) — `FinalizeService`, internal/service/worker/finalize.go -/

/-- `FinalizeService.HandleBookingTimeout` for a `booking_timeout` payload
`(bookingId, eventId, userId, seats)`.  The `Bool` result is `true` when
the Go method returns a nil error.  As in the source, the first return
value of `waitlist.NextActive` — the waitlist ENTRY id — is bound to the
`userID` used as the promoted booking's owner, while the promotion
e-mails go to `payload.UserID`, the timed-out booking's user.
`promoBookingId` is the id of the pending booking a promotion inserts. -/
def handleBookingTimeout (s : Sys) (bookingId eventId userId : String)
    (seats : List String) (promoBookingId : String) : Sys × Bool :=
  match getByID s.db bookingId with
  | none => (s, false)
  | some b =>
    if b.status ≠ "pending" then (s, true)
    else
      match cancelBookingTx s.db bookingId with
      | none => (s, false)
      | some (db1, _, _) =>
        let s1 : Sys := { s with db := db1 }
        match eventsGet s1.db eventId with
        | none => (s1, false)
        | some _event =>
          match nextActive s1.db eventId with
          | none => (s1, true)
          | some entry =>
            if entry.id ≠ "" then
              let c := createPending s1.db entry.id eventId none seats promoBookingId
              let s2 : Sys := { s1 with db := c.fst }
              match usersGet s2.db userId with
              | none => (s2, false)
              | some u =>
                ({ s2 with emails := s2.emails ++
                    [{ toAddr := u.email, kind := "waitlist_promotion" },
                     { toAddr := u.email, kind := "payment_request" }] },
                 true)
            else (s1, true)

/-- The body of `scheduleBookingTimeout`'s goroutine after the 15-minute
sleep: read the timeout record and, unless it is `"processed"`, run the
`booking_timeout` path; finally delete the record. -/
def timeoutFire (s : Sys) (bookingId eventId userId : String)
    (seats : List String) (promoBookingId : String) : Sys × Bool :=
  let v := timeoutGet s.timeouts eventId bookingId
  let r :=
    if v ≠ "processed" then
      handleBookingTimeout s bookingId eventId userId seats promoBookingId
    else (s, true)
  ({ r.fst with timeouts := timeoutDel r.fst.timeouts eventId bookingId }, r.snd)

/-! ## HTTP booking handler (C10) — internal/api/bookings/bookings.go -/

/-- Outcome of the `POST /v1/bookings/{event}/book` handler. -/
inductive BookResult where
  | unauthorized
  | badRequest
  /-- any service error is returned as `409 Conflict` by this handler -/
  | conflictErr (r : CreateResult)
  | ok (r : CreateResult)
deriving Repr, DecidableEq

/-- `BookingsHandler.book`: generates a fresh UUID as the idempotency key
(`freshKey` stands for the value of `uuid.NewString()`; no client-supplied
key is read) and invokes `BookingsService.Create` with it. -/
def handlerBook (s : Sys) (now : Int) (eventId userId freshKey : String)
    (seats : List String) (newBookingId newWaitlistId : String) : Sys × BookResult :=
  if userId == "" then (s, .unauthorized)
  else if eventId == "" then (s, .badRequest)
  else
    let r := svcCreate s now eventId userId (some freshKey) seats newBookingId newWaitlistId
    match r.snd with
    | .errEventNotFound => (r.fst, .conflictErr .errEventNotFound)
    | .errExpired => (r.fst, .conflictErr .errExpired)
    | .errTooMany => (r.fst, .conflictErr .errTooMany)
    | out => (r.fst, .ok out)

/-! ## Concrete fixtures used to evaluate the operations -/

/-- A capacity-1 event used by the concrete scenarios. -/
def evE : Event :=
  { id := "E", name := "Gig", endTime := 1000, capacity := 1, reserved := 0,
    status := "upcoming", ticketPrice := 10, cancellationFee := 2,
    maxTicketsPerBooking := 4 }

/-- The single seat of `evE`. -/
def seatS1 : Seat :=
  { eventId := "E", label := "s1", status := "available", heldByBooking := none }

/-- Three registered users. -/
def exUsers : List User :=
  [{ id := "U1", email := "u1@x" }, { id := "U2", email := "u2@x" },
   { id := "U3", email := "u3@x" }]

/-- Initial state of the oversell trace: fresh capacity-1 event, its
counter initialized to 1, empty ledger, seat registry with `s1`. -/
def sysC1st0 : Sys :=
  { db := { events := [evE], bookings := [], seats := [seatS1],
            waitlist := [], users := exUsers },
    tokens := tbInit [] "E" 1, timeouts := [], kafka := [], emails := [] }

/-- Step 1: U1 books `[s1]` — admitted, pending booking `B1`. -/
def sysC1st1 : Sys := (svcCreate sysC1st0 0 "E" "U1" (some "k1") ["s1"] "B1" "Wx").fst

/-- Step 2: U2 books `[s1]` — refused, waitlisted at position 1 (entry `W1`). -/
def sysC1st2 : Sys := (svcCreate sysC1st1 0 "E" "U2" (some "k2") ["s1"] "Bx" "W1").fst

/-- Step 3: U1 pays — `B1` becomes `booked`. -/
def sysC1st3 : Sys := (processBookingPayment sysC1st2 "B1" 10).fst

/-- Step 4: U1 cancels — tokens released AND U2 promoted to pending `B2`. -/
def sysC1st4 : Sys := (svcCancel sysC1st3 "B1" "B2").fst

/-- Step 5: U3 books `[s1]` — admitted on the released token, pending `B3`. -/
def sysC1st5 : Sys := (svcCreate sysC1st4 0 "E" "U3" (some "k3") ["s1"] "B3" "Wy").fst

/-- Step 6: U2 pays — `B2` becomes `booked`. -/
def sysC1st6 : Sys := (processBookingPayment sysC1st5 "B2" 10).fst

/-- Step 7: U3 pays — `B3` becomes `booked` as well. -/
def sysC1st7 : Sys := (processBookingPayment sysC1st6 "B3" 10).fst

/-- A database whose only booking `B1` is `cancelled` (not `pending`),
with its seat available and the event's reserved counter 0. -/
def dbC2 : DB :=
  { events := [evE],
    bookings := [{ id := "B1", userId := "U1", eventId := "E", status := "cancelled",
                   seats := ["s1"], idempotencyKey := none, amountPaid := 0,
                   paymentStatus := "pending" }],
    seats := [seatS1], waitlist := [], users := exUsers }

/-- `FinalizeBooking` applied to the non-pending booking of `dbC2`. -/
def dbC2after : DB := (finalizeBooking dbC2 "B1" ["s1"] 50).getD dbC2

/-- State for the payment-callback scenario: pending booking `B1`, its C7
timeout record present with value `processing`. -/
def sysC3ex : Sys :=
  { db := { events := [evE],
            bookings := [{ id := "B1", userId := "U1", eventId := "E",
                           status := "pending", seats := ["s1"],
                           idempotencyKey := none, amountPaid := 0,
                           paymentStatus := "pending" }],
            seats := [seatS1], waitlist := [], users := exUsers },
    tokens := tbInit [] "E" 0, timeouts := [(toKey "E" "B1", "processing")],
    kafka := [], emails := [] }

/-- State for the timeout scenario: U1 pending on `B1`, U2 waitlisted at
position 1 (entry id `W1`), counter exhausted, grace record `processing`. -/
def sysC4ex : Sys :=
  { db := { events := [evE],
            bookings := [{ id := "B1", userId := "U1", eventId := "E",
                           status := "pending", seats := ["s1"],
                           idempotencyKey := none, amountPaid := 0,
                           paymentStatus := "pending" }],
            seats := [seatS1],
            waitlist := [{ id := "W1", eventId := "E", userId := "U2",
                           position := 1, optedOut := false }],
            users := exUsers },
    tokens := tbInit [] "E" 0, timeouts := [(toKey "E" "B1", "processing")],
    kafka := [], emails := [] }

/-- The timeout fires on `sysC4ex` for `B1` after the grace period. -/
def sysC4fired : Sys := (timeoutFire sysC4ex "B1" "E" "U1" ["s1"] "B2").fst

/-- State with a valid event and no bookings, used to call the
coordinator with an empty seat list. -/
def sysC5ex : Sys :=
  { db := { events := [evE], bookings := [], seats := [seatS1],
            waitlist := [], users := exUsers },
    tokens := [], timeouts := [], kafka := [], emails := [] }

/-- The pending booking row of `sysC3ex`/`sysC4ex`. -/
def bkP1 : Booking :=
  { id := "B1", userId := "U1", eventId := "E", status := "pending",
    seats := ["s1"], idempotencyKey := none, amountPaid := 0,
    paymentStatus := "pending" }

/-- The waitlist entry of `sysC4ex`. -/
def entryW1 : WaitlistEntry :=
  { id := "W1", eventId := "E", userId := "U2", position := 1, optedOut := false }

/-- A booking in status `booked` (paid), used to exercise cancellation. -/
def bkC8 : Booking :=
  { id := "B1", userId := "U1", eventId := "E", status := "booked",
    seats := ["s1"], idempotencyKey := none, amountPaid := 10,
    paymentStatus := "paid" }

/-- State with the booked booking `bkC8`: its seat booked, the event's
reserved counter at 1, the token counter exhausted. -/
def sysC8ex : Sys :=
  { db := { events := [{ evE with reserved := 1 }],
            bookings := [bkC8],
            seats := [{ seatS1 with status := "booked", heldByBooking := some "B1" }],
            waitlist := [], users := exUsers },
    tokens := tbInit [] "E" 0, timeouts := [], kafka := [], emails := [] }

/-- State with two tokens available and an empty ledger, used for the
two-identical-requests scenario. -/
def sysC10ex : Sys :=
  { db := { events := [evE], bookings := [], seats := [seatS1],
            waitlist := [], users := exUsers },
    tokens := tbInit [] "E" 2, timeouts := [], kafka := [], emails := [] }

/-! ## Helper lemmas about the store primitives -/

theorem kvGet_kvSet_self {α : Type} (m : List (String × α)) (k : String) (v : α) :
    kvGet (kvSet m k v) k = some v := by
  induction m with
  | nil => simp [kvSet, kvGet, List.find?]
  | cons p rest ih =>
    by_cases h : p.fst == k
    · simp [kvSet, h, kvGet, List.find?]
    · simp only [kvSet, h, if_neg]
      simpa [kvGet, List.find?, h] using ih

theorem findEq_append_of_none {α : Type} (l₁ l₂ : List α) (p : α → Bool)
    (h : l₁.find? p = none) : (l₁ ++ l₂).find? p = l₂.find? p := by
  induction l₁ with
  | nil => simp
  | cons a l ih =>
    by_cases hpa : p a
    · rw [List.find?_cons_of_pos _ hpa] at h
      simp at h
    · rw [List.find?_cons_of_neg _ hpa] at h
      rw [List.cons_append, List.find?_cons_of_neg _ hpa]
      exact ih h

theorem findEq_append_of_some {α : Type} (l₁ l₂ : List α) (p : α → Bool) (x : α)
    (h : l₁.find? p = some x) : (l₁ ++ l₂).find? p = some x := by
  induction l₁ with
  | nil => simp at h
  | cons a l ih =>
    by_cases hpa : p a
    · rw [List.find?_cons_of_pos _ hpa] at h
      rw [List.cons_append, List.find?_cons_of_pos _ hpa]
      exact h
    · rw [List.find?_cons_of_neg _ hpa] at h
      rw [List.cons_append, List.find?_cons_of_neg _ hpa]
      exact ih h

theorem foldl_map_comm {α β : Type} (g : β → α → α) (labels : List β) (xs : List α) :
    labels.foldl (fun acc l => acc.map (g l)) xs
      = xs.map (fun x => labels.foldl (fun y l => g l y) x) := by
  induction labels generalizing xs with
  | nil => simp
  | cons l ls ih =>
    simp only [List.foldl_cons, ih, List.map_map]
    rfl

theorem foldl_setSeatRow (eid a : String) (o : Option String)
    (labels : List String) (st : Seat) :
    labels.foldl
        (fun y l => if y.eventId == eid && y.label == l then
          { y with status := a, heldByBooking := o } else y) st
      = if st.eventId = eid ∧ st.label ∈ labels then
          { st with status := a, heldByBooking := o }
        else st := by
  induction labels generalizing st with
  | nil => simp
  | cons l ls ih =>
    simp only [List.foldl_cons]
    by_cases h1 : st.eventId = eid
    · by_cases h2 : st.label = l
      · rw [if_pos (by simp [h1, h2])]
        rw [ih]
        simp [h1, h2]
      · rw [if_neg (by simp [h2])]
        rw [ih]
        simp [h1, h2, List.mem_cons]
    · rw [if_neg (by simp [h1])]
      rw [ih]
      simp [h1]

theorem findEq_map {α β : Type} (f : α → β) (l : List α) (p : β → Bool) :
    (l.map f).find? p = (l.find? (fun x => p (f x))).map f := by
  induction l with
  | nil => rfl
  | cons x l ih =>
    by_cases hpa : p (f x)
    · rw [List.map_cons, List.find?_cons_of_pos _ hpa,
        @List.find?_cons_of_pos α (fun y => p (f y)) x l hpa]
      rfl
    · rw [List.map_cons, List.find?_cons_of_neg _ hpa,
        @List.find?_cons_of_neg α (fun y => p (f y)) x l hpa, ih]

theorem seats_foldl_release (eid : String) (labels : List String) (xs : List Seat) :
    labels.foldl (fun acc l => acc.map (releaseSeatRow eid l)) xs
      = xs.map (fun st => if st.eventId = eid ∧ st.label ∈ labels then
          { st with status := "available", heldByBooking := none } else st) := by
  rw [foldl_map_comm]
  have hfun : (fun x => labels.foldl (fun y l => releaseSeatRow eid l y) x)
      = (fun st : Seat => if st.eventId = eid ∧ st.label ∈ labels then
          { st with status := "available", heldByBooking := none } else st) := by
    funext st
    simp only [releaseSeatRow]
    exact foldl_setSeatRow eid "available" none labels st
  rw [hfun]

theorem seats_foldl_book (bid eid : String) (labels : List String) (xs : List Seat) :
    labels.foldl (fun acc l => acc.map (bookSeatRow bid eid l)) xs
      = xs.map (fun st => if st.eventId = eid ∧ st.label ∈ labels then
          { st with status := "booked", heldByBooking := some bid } else st) := by
  rw [foldl_map_comm]
  have hfun : (fun x => labels.foldl (fun y l => bookSeatRow bid eid l y) x)
      = (fun st : Seat => if st.eventId = eid ∧ st.label ∈ labels then
          { st with status := "booked", heldByBooking := some bid } else st) := by
    funext st
    simp only [bookSeatRow]
    exact foldl_setSeatRow eid "booked" (some bid) labels st
  rw [hfun]

/-! ## Claim theorems -/

/-- C1: the bound "bookings in status `booked` never exceed capacity" is
NOT preserved by the listed steps.  On a capacity-1 event, the trace
U1 books → U2 waitlists → U1 pays → U1 cancels (which both releases a C1
token AND promotes U2 to a fresh pending booking) → U3 books on the
released token → U2 pays → U3 pays ends with TWO `booked` bookings. -/
theorem C1_oversell_bug :
    (svcCreate sysC1st0 0 "E" "U1" (some "k1") ["s1"] "B1" "Wx").snd
        = CreateResult.pending "B1" ∧
    (svcCreate sysC1st1 0 "E" "U2" (some "k2") ["s1"] "Bx" "W1").snd
        = CreateResult.waitlisted 1 ∧
    (processBookingPayment sysC1st2 "B1" 10).snd = PayResult.success "B1" ∧
    (svcCancel sysC1st3 "B1" "B2").snd = some ("B1", "cancelled") ∧
    (svcCreate sysC1st4 0 "E" "U3" (some "k3") ["s1"] "B3" "Wy").snd
        = CreateResult.pending "B3" ∧
    (processBookingPayment sysC1st5 "B2" 10).snd = PayResult.success "B2" ∧
    (processBookingPayment sysC1st6 "B3" 10).snd = PayResult.success "B3" ∧
    (eventsGet sysC1st7.db "E").map Event.capacity = some 1 ∧
    bookedCount sysC1st7.db "E" = 2 := by
  decide

/-- C2: `FinalizeBooking` on a booking that is NOT `pending` is not a
no-op: the booking row is indeed left unchanged (the `UPDATE` is guarded
by `status = 'pending'`), but the seat rows are still set to `booked`
with a back-reference to the booking, and the event's reserved counter
is still incremented. -/
theorem C2_finalize_not_noop_bug :
    getByID dbC2after "B1" = getByID dbC2 "B1" ∧
    (eventsGet dbC2 "E").map Event.reserved = some 0 ∧
    (eventsGet dbC2after "E").map Event.reserved = some 1 ∧
    dbC2.seats = [seatS1] ∧
    dbC2after.seats
      = [{ eventId := "E", label := "s1", status := "booked",
           heldByBooking := some "B1" }] := by
  decide

/-- C3 counterexample: a successful payment callback on a pending booking
with a sufficient amount leaves the C7 timeout record at `"processing"` —
nothing in the payment path ever writes `"processed"`. -/
theorem C3_counterexample :
    (processBookingPayment sysC3ex "B1" 10).snd = PayResult.success "B1" ∧
    timeoutGet sysC3ex.timeouts "E" "B1" = "processing" ∧
    timeoutGet (processBookingPayment sysC3ex "B1" 10).fst.timeouts "E" "B1"
      = "processing" := by
  decide

/-- C4 counterexample: when the timeout fires on a still-pending booking,
the worker cancels it and promotes the waitlist, but the C1 counter is
NOT restored (it stays at 0 instead of rising by the seat count) and the
seat registry is untouched. -/
theorem C4_counterexample :
    (getByID sysC4fired.db "B1").map Booking.status = some "cancelled" ∧
    tbRemaining sysC4ex.tokens "E" = 0 ∧
    tbRemaining sysC4fired.tokens "E" = 0 ∧
    sysC4fired.db.seats = sysC4ex.db.seats := by
  decide

/-- C5 counterexample: `BookingsService.Create` performs NO zero-seat
validation — with `seats = []` on a valid event the call is admitted
(`0 ≤ remaining` always holds) and inserts a pending booking instead of
failing with a validation error. -/
theorem C5_counterexample :
    (svcCreate sysC5ex 0 "E" "U1" (some "kz") [] "B9" "W9").snd
      = CreateResult.pending "B9" ∧
    getByID (svcCreate sysC5ex 0 "E" "U1" (some "kz") [] "B9" "W9").fst.db "B9"
      = some { id := "B9", userId := "U1", eventId := "E", status := "pending",
               seats := [], idempotencyKey := some "kz", amountPaid := 0,
               paymentStatus := "pending" } := by
  decide

/-- C9: in the timeout-promotion scenario (capacity 1, U1 pending, U2
waitlisted at position 1, no payment within the grace period) the code
cancels U1's booking and creates a new pending booking over the same
seat, but the new booking's owner is the waitlist ENTRY id `"W1"` (the
first return value of `NextActive`, mis-bound to `userID`), not U2, and
both promotion e-mails go to U1's address (`payload.UserID`), not U2's. -/
theorem C9_promotion_recipient_bug :
    (getByID sysC4fired.db "B1").map Booking.status = some "cancelled" ∧
    getByID sysC4fired.db "B2"
      = some { id := "B2", userId := "W1", eventId := "E", status := "pending",
               seats := ["s1"], idempotencyKey := none, amountPaid := 0,
               paymentStatus := "pending" } ∧
    (usersGet sysC4ex.db "U2").map User.email = some "u2@x" ∧
    sysC4fired.emails
      = [{ toAddr := "u1@x", kind := "waitlist_promotion" },
         { toAddr := "u1@x", kind := "payment_request" }] := by
  decide

/-- C6: `TokenBucket.Reserve(event, n)` admits and decrements the
remaining value by exactly `n` when `remaining ≥ n`, refuses and leaves
the store untouched otherwise, and an event with no counter entry reads
as `remaining = 0`. -/
theorem C6_reserve_correct (tokens : List (String × Int)) (eid : String) (n : Int) :
    (n ≤ tbRemaining tokens eid →
      (tbReserve tokens eid n).fst = true ∧
      tbRemaining (tbReserve tokens eid n).snd eid = tbRemaining tokens eid - n) ∧
    (¬ n ≤ tbRemaining tokens eid →
      (tbReserve tokens eid n).fst = false ∧
      (tbReserve tokens eid n).snd = tokens) ∧
    (kvGet tokens (tbKey eid) = none → tbRemaining tokens eid = 0) := by
  refine ⟨fun h => ?_, fun h => ?_, fun h => ?_⟩
  · have h' : n ≤ (kvGet tokens (tbKey eid)).getD 0 := h
    constructor
    · simp [tbReserve, tbGet, h']
    · simp [tbReserve, tbRemaining, tbGet, h', kvGet_kvSet_self]
  · have h' : ¬ n ≤ tbGet tokens eid := h
    constructor
    · simp [tbReserve, h']
    · simp [tbReserve, h']
  · simp [tbRemaining, tbGet, h]

/-- Witness for C6 at a concrete store: `{E ↦ 3}`, requesting 2 then 5. -/
theorem C6_reserve_correct_witness :
    ((2 : Int) ≤ tbRemaining (tbInit [] "E" 3) "E" ∧
      (tbReserve (tbInit [] "E" 3) "E" 2).fst = true ∧
      tbRemaining (tbReserve (tbInit [] "E" 3) "E" 2).snd "E"
        = tbRemaining (tbInit [] "E" 3) "E" - 2) ∧
    (¬ (5 : Int) ≤ tbRemaining (tbInit [] "E" 3) "E" ∧
      (tbReserve (tbInit [] "E" 3) "E" 5).fst = false ∧
      (tbReserve (tbInit [] "E" 3) "E" 5).snd = tbInit [] "E" 3) ∧
    (kvGet ([] : List (String × Int)) (tbKey "F") = none ∧
      tbRemaining ([] : List (String × Int)) "F" = 0) := by
  refine ⟨⟨by decide, ?_⟩, ⟨by decide, ?_⟩, ⟨by decide, ?_⟩⟩
  · exact (C6_reserve_correct (tbInit [] "E" 3) "E" 2).1 (by decide)
  · exact (C6_reserve_correct (tbInit [] "E" 3) "E" 5).2.1 (by decide)
  · exact (C6_reserve_correct ([] : List (String × Int)) "F" 0).2.2 (by decide)

/-- C7: with the event valid, a non-empty fresh idempotency key and
enough remaining tokens, `CreateBooking(e,u,k,S)` admits and returns a
pending booking; an immediate replay with the same key returns the SAME
booking identity with the system state completely unchanged, and the C1
counter has been decremented exactly once (by `|S|`). -/
theorem C7_idempotent_replay (s : Sys) (now : Int) (eid uid k : String)
    (S : List String) (b1 w1 b2 w2 : String) (ev : Event)
    (hev : eventsGet s.db eid = some ev)
    (hnotExpired : ¬ ev.endTime < now)
    (hmax : (S.length : Int) ≤ ev.maxTicketsPerBooking)
    (hk : k ≠ "")
    (hfresh : getByIdempotency s.db k = none)
    (htok : (S.length : Int) ≤ tbGet s.tokens eid) :
    (svcCreate s now eid uid (some k) S b1 w1).snd = CreateResult.pending b1 ∧
    (svcCreate (svcCreate s now eid uid (some k) S b1 w1).fst now eid uid (some k) S b2 w2)
      = ((svcCreate s now eid uid (some k) S b1 w1).fst, CreateResult.replay b1 "pending") ∧
    tbRemaining (svcCreate s now eid uid (some k) S b1 w1).fst.tokens eid
      = tbRemaining s.tokens eid - S.length := by
  have hmax2 : ¬ ((S.length : Int) > ev.maxTicketsPerBooking) := not_lt.mpr hmax
  have hres : tbReserve s.tokens eid (S.length : Int)
      = (true, kvSet s.tokens (tbKey eid) (tbGet s.tokens eid - S.length)) := by
    simp [tbReserve, htok]
  have h1 : svcCreate s now eid uid (some k) S b1 w1
      = ({ s with
            db := (createPending s.db uid eid (some k) S b1).fst,
            tokens := kvSet s.tokens (tbKey eid) (tbGet s.tokens eid - S.length),
            kafka := s.kafka ++
              [{ key := eid, typ := "finalize_booking", bookingId := b1,
                 eventId := eid, userId := uid, seats := S,
                 idempotencyKey := some k }] },
         CreateResult.pending b1) := by
    simp only [svcCreate, hev, hnotExpired, hmax2, ne_eq, hk, hfresh, hres, createPending,
      ite_self, if_false, if_true, ite_false, ite_true, not_false_iff]
  rw [h1]
  refine ⟨rfl, ?_, ?_⟩
  · have hev2 : eventsGet (createPending s.db uid eid (some k) S b1).fst eid
        = some ev := hev
    have hrep : getByIdempotency (createPending s.db uid eid (some k) S b1).fst k
        = some { id := b1, userId := uid, eventId := eid, status := "pending",
                 seats := S, idempotencyKey := some k, amountPaid := 0,
                 paymentStatus := "pending" } := by
      show (s.db.bookings ++ [_]).find? _ = _
      rw [findEq_append_of_none _ _ _ hfresh]
      simp [List.find?]
    simp only [svcCreate, hev2, hnotExpired, hmax2, ne_eq, hk, hrep,
      ite_true, if_true, ite_false, if_false, not_false_iff]
  · show (kvGet (kvSet s.tokens (tbKey eid) (tbGet s.tokens eid - S.length))
        (tbKey eid)).getD 0 = tbRemaining s.tokens eid - S.length
    rw [kvGet_kvSet_self]
    simp [tbRemaining, tbGet]

/-- Witness for C7: the fresh capacity-1 state, key `"kk"`, one seat. -/
theorem C7_idempotent_replay_witness :
    eventsGet sysC1st0.db "E" = some evE ∧
    getByIdempotency sysC1st0.db "kk" = none ∧
    (1 : Int) ≤ tbGet sysC1st0.tokens "E" ∧
    ((svcCreate sysC1st0 0 "E" "U1" (some "kk") ["s1"] "B1" "W1").snd
        = CreateResult.pending "B1" ∧
      (svcCreate (svcCreate sysC1st0 0 "E" "U1" (some "kk") ["s1"] "B1" "W1").fst
          0 "E" "U1" (some "kk") ["s1"] "B2" "W2")
        = ((svcCreate sysC1st0 0 "E" "U1" (some "kk") ["s1"] "B1" "W1").fst,
           CreateResult.replay "B1" "pending") ∧
      tbRemaining (svcCreate sysC1st0 0 "E" "U1" (some "kk") ["s1"] "B1" "W1").fst.tokens "E"
        = tbRemaining sysC1st0.tokens "E" - 1) :=
  ⟨by decide, by decide, by decide,
   C7_idempotent_replay sysC1st0 0 "E" "U1" "kk" ["s1"] "B1" "W1" "B2" "W2" evE
     (by decide) (by decide) (by decide) (by decide) (by decide) (by decide)⟩

theorem findEq_map_id_pres {α : Type} (l : List α) (idf : α → String) (key : String)
    (g : α → α) (hg : ∀ x, idf (g x) = idf x) :
    (l.map g).find? (fun x => idf x == key) = (l.find? (fun x => idf x == key)).map g := by
  rw [findEq_map]
  have hfun : (fun x => idf (g x) == key) = (fun x => idf x == key) := by
    funext x; rw [hg]
  rw [hfun]

/-- C8: for an existing booking, `CancelBookingTx` returns
`wasBooked = (prior status = booked)`, returns the booking record with
status `cancelled`, and persists the `cancelled` status; exactly when the
prior status was `booked` it decrements the event's reserved counter and
releases the booking's seat rows to `available` with cleared
back-references (otherwise events and seats are untouched); and the
caller `BookingsService.Cancel` releases C1 tokens (by the booking's seat
count, 1 when empty) exactly in the `wasBooked` case. -/
theorem C8_cancel_spec (s : Sys) (bid pid : String) (b : Booking)
    (hb : getByID s.db bid = some b) :
    ((cancelBookingTx s.db bid).map (fun t => t.2.2) = some (b.status == "booked")) ∧
    ((cancelBookingTx s.db bid).map (fun t => t.2.1)
        = some { b with status := "cancelled" }) ∧
    ((cancelBookingTx s.db bid).map (fun t => getByID t.1 bid)
        = some (some { b with status := "cancelled" })) ∧
    (¬ b.status = "booked" →
      (cancelBookingTx s.db bid).map (fun t => (t.1.events, t.1.seats))
        = some (s.db.events, s.db.seats)) ∧
    (b.status = "booked" →
      ((cancelBookingTx s.db bid).map
          (fun t => (eventsGet t.1 b.eventId).map Event.reserved)
        = some ((eventsGet s.db b.eventId).map (fun e => e.reserved - 1))) ∧
      ((cancelBookingTx s.db bid).map (fun t => t.1.seats)
        = some (s.db.seats.map (fun st =>
            if st.eventId = b.eventId ∧ st.label ∈ b.seats then
              { st with status := "available", heldByBooking := none } else st)))) ∧
    ((svcCancel s bid pid).fst.tokens
        = if b.status = "booked"
          then tbRelease s.tokens b.eventId
                 (if b.seats.length == 0 then 1 else (b.seats.length : Int))
          else s.tokens) := by
  have hpb : (b.id == bid) = true := by
    have h : List.find? (fun x : Booking => x.id == bid) s.db.bookings = some b := hb
    simpa using List.find?_some h
  have hb2 : List.find? (fun x : Booking => x.id == bid) s.db.bookings = some b := hb
  by_cases hwb : b.status = "booked"
  · simp only [cancelBookingTx, hb, hwb, Option.map_some, beq_self_eq_true, ite_true,
      if_true]
    refine ⟨by simp, by simp, ?_, by simp, fun _ => ⟨?_, ?_⟩, ?_⟩
    · simp only [Option.map_some', Option.some.injEq]
      show (List.map _ s.db.bookings).find? _ = _
      rw [findEq_map_id_pres s.db.bookings Booking.id bid _
        (fun x => by by_cases hx : (x.id == bid) = true <;> simp [hx])]
      rw [hb2]
      have hpb2 : b.id = bid := by simpa using hpb
      simp [hpb2]
    · simp only [Option.map_some', Option.some.injEq]
      show ((List.map _ s.db.events).find? _).map _ = _
      rw [findEq_map_id_pres s.db.events Event.id b.eventId _
        (fun e => by by_cases hx : (e.id == b.eventId) = true <;> simp [hx])]
      rcases he : List.find? (fun e : Event => e.id == b.eventId) s.db.events with _ | e
      · have he2 : eventsGet s.db b.eventId = none := he
        simp [he2]
      · have hpe : e.id = b.eventId := by
          simpa using List.find?_some he
        have he2 : eventsGet s.db b.eventId = some e := he
        simp [he2, hpe]
    · simp only [Option.map_some', Option.some.injEq]
      show List.foldl _ s.db.seats b.seats = _
      rw [seats_foldl_release]
    · simp only [svcCancel, cancelBookingTx, hb, hwb, beq_self_eq_true, ite_true,
        if_true, eq_self_iff_true]
      repeat' (first | rfl | split)
  · have hwb2 : (b.status == "booked") = false := by simp [hwb]
    simp only [cancelBookingTx, hb, hwb2, Bool.false_eq_true, ite_false, if_false]
    refine ⟨by simp, by simp, ?_, fun _ => rfl, fun h => absurd h hwb, ?_⟩
    · simp only [Option.map_some', Option.some.injEq]
      show (List.map _ s.db.bookings).find? _ = _
      rw [findEq_map_id_pres s.db.bookings Booking.id bid _
        (fun x => by by_cases hx : (x.id == bid) = true <;> simp [hx])]
      rw [hb2]
      have hpb2 : b.id = bid := by simpa using hpb
      simp [hpb2]
    · simp only [svcCancel, cancelBookingTx, hb, hwb2, Bool.false_eq_true, ite_false,
        if_false]
      rw [if_neg hwb]

/-- Witness for C8 at the booked booking `bkC8` of `sysC8ex`. -/
theorem C8_cancel_spec_witness :
    getByID sysC8ex.db "B1" = some bkC8 ∧
    (((cancelBookingTx sysC8ex.db "B1").map (fun t => t.2.2)
        = some (bkC8.status == "booked")) ∧
     ((cancelBookingTx sysC8ex.db "B1").map (fun t => t.2.1)
        = some { bkC8 with status := "cancelled" }) ∧
     ((cancelBookingTx sysC8ex.db "B1").map (fun t => getByID t.1 "B1")
        = some (some { bkC8 with status := "cancelled" })) ∧
     (¬ bkC8.status = "booked" →
       (cancelBookingTx sysC8ex.db "B1").map (fun t => (t.1.events, t.1.seats))
         = some (sysC8ex.db.events, sysC8ex.db.seats)) ∧
     (bkC8.status = "booked" →
       ((cancelBookingTx sysC8ex.db "B1").map
           (fun t => (eventsGet t.1 bkC8.eventId).map Event.reserved)
         = some ((eventsGet sysC8ex.db bkC8.eventId).map (fun e => e.reserved - 1))) ∧
       ((cancelBookingTx sysC8ex.db "B1").map (fun t => t.1.seats)
         = some (sysC8ex.db.seats.map (fun st =>
             if st.eventId = bkC8.eventId ∧ st.label ∈ bkC8.seats then
               { st with status := "available", heldByBooking := none } else st)))) ∧
     ((svcCancel sysC8ex "B1" "B2").fst.tokens
         = if bkC8.status = "booked"
           then tbRelease sysC8ex.tokens bkC8.eventId
                  (if bkC8.seats.length == 0 then 1 else (bkC8.seats.length : Int))
           else sysC8ex.tokens)) :=
  ⟨by decide, C8_cancel_spec sysC8ex "B1" "B2" bkC8 (by decide)⟩

/-- C3 (amended): a successful payment callback on a pending booking with
a sufficient amount makes the booking `booked`/`paid` with the paid
amount recorded, marks each of the booking's seat rows `booked` with a
back-reference to the booking, and leaves the C7 timeout store completely
unchanged (no `processed` flag is ever written). -/
theorem C3_payment_amended (s : Sys) (bid : String) (amount : Int) (b : Booking) (ev : Event)
    (hb : getByID s.db bid = some b)
    (hpend : b.status = "pending")
    (hseats : b.seats ≠ [])
    (hev : eventsGet s.db b.eventId = some ev)
    (hamt : ev.ticketPrice * (b.seats.length : Int) ≤ amount) :
    (processBookingPayment s bid amount).snd = PayResult.success bid ∧
    getByID (processBookingPayment s bid amount).fst.db bid
      = some { b with status := "booked", amountPaid := amount,
                      paymentStatus := "paid" } ∧
    (processBookingPayment s bid amount).fst.db.seats
      = s.db.seats.map (fun st =>
          if st.eventId = b.eventId ∧ st.label ∈ b.seats then
            { st with status := "booked", heldByBooking := some bid } else st) ∧
    (processBookingPayment s bid amount).fst.timeouts = s.timeouts := by
  have hb2 : List.find? (fun x : Booking => x.id == bid) s.db.bookings = some b := hb
  have hpb : (b.id == bid) = true := by
    simpa using List.find?_some hb2
  have hlen : (b.seats.length == 0) = false := by
    simp [List.length_eq_zero, hseats]
  have hnpend : ¬ b.status ≠ "pending" := by simp [hpend]
  have hnamt : ¬ amount < ev.ticketPrice * (b.seats.length : Int) := not_lt.mpr hamt
  have hany : s.db.bookings.any (fun x => x.id == bid) = true := by
    rw [List.any_eq_true]
    exact ⟨b, List.mem_of_find?_eq_some hb2, hpb⟩
  have hpb2 : b.id = bid := by simpa using hpb
  have h5 : getByID { s.db with bookings := s.db.bookings.map (fun x =>
      if x.id == bid then { x with paymentStatus := "paid", amountPaid := amount }
      else x) } bid
      = some { b with paymentStatus := "paid", amountPaid := amount } := by
    show (s.db.bookings.map _).find? _ = _
    rw [findEq_map_id_pres s.db.bookings Booking.id bid _
      (fun x => by by_cases hx : (x.id == bid) = true <;> simp [hx])]
    rw [hb2]
    simp [hpb2]
  simp only [processBookingPayment, hb, hnpend, hev, hlen, hnamt, updatePaymentStatus,
    hany, finalizeBooking, h5, if_true, ite_true, if_false, ite_false,
    Bool.false_eq_true, not_false_iff, Option.map_some', Option.some.injEq]
  refine ⟨trivial, ?_, ?_, trivial⟩
  · show (List.map _ (List.map _ s.db.bookings)).find? _ = _
    rw [findEq_map_id_pres _ Booking.id bid _
      (fun x => by
        by_cases hx : (x.id == bid && x.status == "pending") = true <;> simp [hx])]
    have h6 : List.find? (fun x : Booking => x.id == bid)
        (List.map (fun x : Booking =>
          if x.id == bid then { x with paymentStatus := "paid", amountPaid := amount }
          else x) s.db.bookings)
        = some { b with paymentStatus := "paid", amountPaid := amount } := h5
    rw [h6]
    simp [hpend, hpb2]
  · rw [seats_foldl_book]

/-- Witness for C3 (amended) at the pending booking of `sysC3ex`. -/
theorem C3_payment_amended_witness :
    getByID sysC3ex.db "B1" = some bkP1 ∧
    ((processBookingPayment sysC3ex "B1" 10).snd = PayResult.success "B1" ∧
     getByID (processBookingPayment sysC3ex "B1" 10).fst.db "B1"
       = some { bkP1 with status := "booked", amountPaid := 10,
                          paymentStatus := "paid" } ∧
     (processBookingPayment sysC3ex "B1" 10).fst.db.seats
       = sysC3ex.db.seats.map (fun st =>
           if st.eventId = bkP1.eventId ∧ st.label ∈ bkP1.seats then
             { st with status := "booked", heldByBooking := some "B1" } else st) ∧
     (processBookingPayment sysC3ex "B1" 10).fst.timeouts = sysC3ex.timeouts) :=
  ⟨by decide, C3_payment_amended sysC3ex "B1" 10 bkP1 evE (by decide) (by decide)
    (by decide) (by decide) (by decide)⟩

/-- C4 (amended): when the scheduled timeout fires for a booking that is
still `pending`, the worker cancels it in the ledger and promotes the
next active waitlist entry to a new pending booking over the same seats
(owned by the waitlist entry's id), but it leaves the C1 token store and
the seat registry completely unchanged: no counter restore, no seat
release. -/
theorem C4_timeout_amended (s : Sys) (bid eid uid pid : String) (seats : List String)
    (b : Booking) (ev : Event) (entry : WaitlistEntry) (u : User)
    (hb : getByID s.db bid = some b)
    (hpend : b.status = "pending")
    (hnp : timeoutGet s.timeouts eid bid ≠ "processed")
    (hev : eventsGet s.db eid = some ev)
    (hnext : nextActive s.db eid = some entry)
    (hentry : entry.id ≠ "")
    (hu : usersGet s.db uid = some u)
    (hpid : getByID s.db pid = none) :
    (timeoutFire s bid eid uid seats pid).snd = true ∧
    (timeoutFire s bid eid uid seats pid).fst.tokens = s.tokens ∧
    (timeoutFire s bid eid uid seats pid).fst.db.seats = s.db.seats ∧
    getByID (timeoutFire s bid eid uid seats pid).fst.db bid
      = some { b with status := "cancelled" } ∧
    getByID (timeoutFire s bid eid uid seats pid).fst.db pid
      = some { id := pid, userId := entry.id, eventId := eid, status := "pending",
               seats := seats, idempotencyKey := none, amountPaid := 0,
               paymentStatus := "pending" } := by
  have hb2 : List.find? (fun x : Booking => x.id == bid) s.db.bookings = some b := hb
  have hpb : (b.id == bid) = true := by simpa using List.find?_some hb2
  have hpb2 : b.id = bid := by simpa using hpb
  have hpid2 : List.find? (fun x : Booking => x.id == pid) s.db.bookings = none := hpid
  have hnpend : ¬ b.status ≠ "pending" := by simp [hpend]
  have hwb2 : (b.status == "booked") = false := by simp [hpend]
  simp only [timeoutFire, handleBookingTimeout, getByID, cancelBookingTx,
    eventsGet, usersGet, nextActive, createPending] at hev hnext hu ⊢
  have hsb : (("pending" : String) == "booked") = false := rfl
  simp only [hb2, hnp, hnpend, hpend, hwb2, hev, hnext, hentry, hu, hsb,
    ne_eq, not_false_iff, not_true, if_true, ite_true, if_false, ite_false,
    Bool.false_eq_true, not_false_eq_true]
  refine ⟨trivial, trivial, trivial, ?_, ?_⟩
  · have hmap : List.find? (fun x : Booking => x.id == bid)
        (List.map (fun x : Booking =>
          if x.id == bid then { x with status := "cancelled" } else x) s.db.bookings)
        = some { b with status := "cancelled" } := by
      rw [findEq_map_id_pres _ Booking.id bid _
        (fun x => by by_cases hx : (x.id == bid) = true <;> simp [hx])]
      rw [hb2]
      simp [hpb2]
    rw [findEq_append_of_some _ _ _ _ hmap]
  · have hmap : List.find? (fun x : Booking => x.id == pid)
        (List.map (fun x : Booking =>
          if x.id == bid then { x with status := "cancelled" } else x) s.db.bookings)
        = none := by
      rw [findEq_map_id_pres _ Booking.id pid _
        (fun x => by by_cases hx : (x.id == bid) = true <;> simp [hx])]
      rw [hpid2]
      rfl
    rw [findEq_append_of_none _ _ _ hmap]
    simp

/-- Witness for C4 (amended) at the timeout scenario `sysC4ex`. -/
theorem C4_timeout_amended_witness :
    getByID sysC4ex.db "B1" = some bkP1 ∧
    timeoutGet sysC4ex.timeouts "E" "B1" ≠ "processed" ∧
    ((timeoutFire sysC4ex "B1" "E" "U1" ["s1"] "B2").snd = true ∧
     (timeoutFire sysC4ex "B1" "E" "U1" ["s1"] "B2").fst.tokens = sysC4ex.tokens ∧
     (timeoutFire sysC4ex "B1" "E" "U1" ["s1"] "B2").fst.db.seats = sysC4ex.db.seats ∧
     getByID (timeoutFire sysC4ex "B1" "E" "U1" ["s1"] "B2").fst.db "B1"
       = some { bkP1 with status := "cancelled" } ∧
     getByID (timeoutFire sysC4ex "B1" "E" "U1" ["s1"] "B2").fst.db "B2"
       = some { id := "B2", userId := entryW1.id, eventId := "E", status := "pending",
                seats := ["s1"], idempotencyKey := none, amountPaid := 0,
                paymentStatus := "pending" }) :=
  ⟨by decide, by decide,
   C4_timeout_amended sysC4ex "B1" "E" "U1" "B2" ["s1"] bkP1 evE entryW1
     ⟨"U1", "u1@x"⟩ (by decide) (by decide) (by decide) (by decide) (by decide)
     (by decide) (by decide) (by decide)⟩

/-- C5 (amended): `BookingsService.Create` fails not-found when the event
is absent (state unchanged), fails expired when the event's end time has
passed (updating only the event's status — no admission, insert or
waitlist append), and fails validation when `|seats|` exceeds the
per-booking maximum (state unchanged); but it performs NO zero-seat
validation: with `seats = []` (and a non-negative counter value, which a
0-seat reservation always satisfies) the call is admitted and inserts a
pending booking with an empty seat list. -/
theorem C5_create_amended (s : Sys) (now : Int) (eid uid nb nw : String) (seats : List String) :
    (eventsGet s.db eid = none →
      svcCreate s now eid uid none seats nb nw = (s, CreateResult.errEventNotFound)) ∧
    (∀ ev, eventsGet s.db eid = some ev → ev.endTime < now →
      (svcCreate s now eid uid none seats nb nw).snd = CreateResult.errExpired ∧
      (svcCreate s now eid uid none seats nb nw).fst.tokens = s.tokens ∧
      (svcCreate s now eid uid none seats nb nw).fst.db.bookings = s.db.bookings ∧
      (svcCreate s now eid uid none seats nb nw).fst.db.waitlist = s.db.waitlist ∧
      (svcCreate s now eid uid none seats nb nw).fst.db
        = eventsUpdateStatus s.db eid "expired") ∧
    (∀ ev, eventsGet s.db eid = some ev → ¬ ev.endTime < now →
      (seats.length : Int) > ev.maxTicketsPerBooking →
      svcCreate s now eid uid none seats nb nw = (s, CreateResult.errTooMany)) ∧
    (∀ ev, eventsGet s.db eid = some ev → ¬ ev.endTime < now →
      0 ≤ ev.maxTicketsPerBooking → seats = [] → 0 ≤ tbGet s.tokens eid →
      (svcCreate s now eid uid none seats nb nw).snd = CreateResult.pending nb ∧
      (svcCreate s now eid uid none seats nb nw).fst.db.bookings
        = s.db.bookings ++
            [{ id := nb, userId := uid, eventId := eid, status := "pending",
               seats := [], idempotencyKey := none, amountPaid := 0,
               paymentStatus := "pending" }]) := by
  refine ⟨?_, ?_, ?_, ?_⟩
  · intro h
    simp [svcCreate, h]
  · intro ev hev hexp
    simp only [svcCreate, hev, hexp, if_true, ite_true]
    and_intros <;> trivial
  · intro ev hev hexp hmax
    simp only [svcCreate, hev, hexp, hmax, if_true, ite_true, if_false, ite_false]
  · intro ev hev hexp hmax0 hseats htok
    subst hseats
    have hmaxc : ¬ (((List.length ([] : List String)) : Int) > ev.maxTicketsPerBooking) := by
      simpa using not_lt.mpr hmax0
    have hres : tbReserve s.tokens eid ((List.length ([] : List String)) : Int)
        = (true, kvSet s.tokens (tbKey eid) (tbGet s.tokens eid - 0)) := by
      simp [tbReserve, htok]
    simp only [svcCreate, hev, hexp, hmaxc, hres, createPending,
      if_false, ite_false, if_true, ite_true]
    and_intros <;> trivial

/-- Witness for C5 (amended): all four branches exercised on `sysC5ex`. -/
theorem C5_create_amended_witness :
    (eventsGet sysC5ex.db "NOPE" = none ∧
      svcCreate sysC5ex 0 "NOPE" "U1" none ["s1"] "B9" "W9"
        = (sysC5ex, CreateResult.errEventNotFound)) ∧
    (eventsGet sysC5ex.db "E" = some evE ∧ evE.endTime < 2000 ∧
      (svcCreate sysC5ex 2000 "E" "U1" none ["s1"] "B9" "W9").snd
        = CreateResult.errExpired ∧
      (svcCreate sysC5ex 2000 "E" "U1" none ["s1"] "B9" "W9").fst.db
        = eventsUpdateStatus sysC5ex.db "E" "expired") ∧
    (((["a", "b", "c", "d", "e"] : List String).length : Int)
        > evE.maxTicketsPerBooking ∧
      svcCreate sysC5ex 0 "E" "U1" none ["a", "b", "c", "d", "e"] "B9" "W9"
        = (sysC5ex, CreateResult.errTooMany)) ∧
    ((svcCreate sysC5ex 0 "E" "U1" none [] "B9" "W9").snd
        = CreateResult.pending "B9" ∧
      (svcCreate sysC5ex 0 "E" "U1" none [] "B9" "W9").fst.db.bookings
        = sysC5ex.db.bookings ++
            [{ id := "B9", userId := "U1", eventId := "E", status := "pending",
               seats := [], idempotencyKey := none, amountPaid := 0,
               paymentStatus := "pending" }]) := by
  refine ⟨⟨by decide, ?_⟩, ⟨by decide, by decide, ?_, ?_⟩, ⟨by decide, ?_⟩, ?_⟩
  · exact (C5_create_amended sysC5ex 0 "NOPE" "U1" "B9" "W9" ["s1"]).1 (by decide)
  · exact ((C5_create_amended sysC5ex 2000 "E" "U1" "B9" "W9" ["s1"]).2.1 evE
      (by decide) (by decide)).1
  · exact ((C5_create_amended sysC5ex 2000 "E" "U1" "B9" "W9" ["s1"]).2.1 evE
      (by decide) (by decide)).2.2.2.2
  · exact (C5_create_amended sysC5ex 0 "E" "U1" "B9" "W9"
      ["a", "b", "c", "d", "e"]).2.2.1 evE (by decide) (by decide) (by decide)
  · exact (C5_create_amended sysC5ex 0 "E" "U1" "B9" "W9" []).2.2.2 evE
      (by decide) (by decide) (by decide) rfl (by decide)

/-- C10: the booking handler always invokes the coordinator with the
freshly generated UUID (`freshKey` in `handlerBook`) as the idempotency
key — no client-supplied key exists in its signature.  Consequently, for
two identical requests carrying distinct fresh keys, both are admitted as
new pending bookings: the ledger gains two distinct rows and the C1
counter is decremented once per request. -/
theorem C10_handler_fresh_key (s : Sys) (now : Int) (eid uid k1 k2 : String)
    (seats : List String) (b1 w1 b2 w2 : String) (ev : Event)
    (huid : uid ≠ "") (heid : eid ≠ "")
    (hev : eventsGet s.db eid = some ev)
    (hne : ¬ ev.endTime < now)
    (hmax : (seats.length : Int) ≤ ev.maxTicketsPerBooking)
    (hk1 : k1 ≠ "") (hk2 : k2 ≠ "") (hkk : k1 ≠ k2)
    (hf1 : getByIdempotency s.db k1 = none)
    (hf2 : getByIdempotency s.db k2 = none)
    (htok : 2 * (seats.length : Int) ≤ tbGet s.tokens eid) :
    (handlerBook s now eid uid k1 seats b1 w1).snd
      = BookResult.ok (CreateResult.pending b1) ∧
    (handlerBook (handlerBook s now eid uid k1 seats b1 w1).fst
        now eid uid k2 seats b2 w2).snd
      = BookResult.ok (CreateResult.pending b2) ∧
    (handlerBook (handlerBook s now eid uid k1 seats b1 w1).fst
        now eid uid k2 seats b2 w2).fst.db.bookings
      = s.db.bookings ++
          [{ id := b1, userId := uid, eventId := eid, status := "pending",
             seats := seats, idempotencyKey := some k1, amountPaid := 0,
             paymentStatus := "pending" }] ++
          [{ id := b2, userId := uid, eventId := eid, status := "pending",
             seats := seats, idempotencyKey := some k2, amountPaid := 0,
             paymentStatus := "pending" }] ∧
    ({ id := b1, userId := uid, eventId := eid, status := "pending",
       seats := seats, idempotencyKey := some k1, amountPaid := 0,
       paymentStatus := "pending" } : Booking)
      ≠ { id := b2, userId := uid, eventId := eid, status := "pending",
          seats := seats, idempotencyKey := some k2, amountPaid := 0,
          paymentStatus := "pending" } ∧
    tbRemaining (handlerBook s now eid uid k1 seats b1 w1).fst.tokens eid
      = tbRemaining s.tokens eid - seats.length ∧
    tbRemaining (handlerBook (handlerBook s now eid uid k1 seats b1 w1).fst
        now eid uid k2 seats b2 w2).fst.tokens eid
      = tbRemaining s.tokens eid - 2 * seats.length := by
  have huid2 : (uid == "") = false := by simp [huid]
  have heid2 : (eid == "") = false := by simp [heid]
  have hlen0 : (0 : Int) ≤ (seats.length : Int) := Int.natCast_nonneg _
  have hmax2 : ¬ ((seats.length : Int) > ev.maxTicketsPerBooking) := not_lt.mpr hmax
  have htok1 : (seats.length : Int) ≤ tbGet s.tokens eid := by omega
  have hres1 : tbReserve s.tokens eid (seats.length : Int)
      = (true, kvSet s.tokens (tbKey eid) (tbGet s.tokens eid - seats.length)) := by
    simp [tbReserve, htok1]
  have h1 : handlerBook s now eid uid k1 seats b1 w1
      = ({ s with
            db := (createPending s.db uid eid (some k1) seats b1).fst,
            tokens := kvSet s.tokens (tbKey eid) (tbGet s.tokens eid - seats.length),
            kafka := s.kafka ++
              [{ key := eid, typ := "finalize_booking", bookingId := b1,
                 eventId := eid, userId := uid, seats := seats,
                 idempotencyKey := some k1 }] },
         BookResult.ok (CreateResult.pending b1)) := by
    simp only [handlerBook, huid2, heid2, Bool.false_eq_true, if_false, ite_false,
      svcCreate, hev, hne, hmax2, ne_eq, hk1, hf1, hres1, createPending, ite_self,
      if_true, ite_true, not_false_iff]
  have hg1 : tbGet (kvSet s.tokens (tbKey eid) (tbGet s.tokens eid - seats.length)) eid
      = tbGet s.tokens eid - seats.length := by
    simp [tbGet, kvGet_kvSet_self]
  have hf2b : getByIdempotency
      (createPending s.db uid eid (some k1) seats b1).fst k2 = none := by
    show (s.db.bookings ++ [_]).find? _ = none
    rw [findEq_append_of_none _ _ _ hf2]
    have hbeq : (k1 == k2) = false := by simp [hkk]
    simp [List.find?, hbeq]
  have htok2 : (seats.length : Int)
      ≤ tbGet (kvSet s.tokens (tbKey eid) (tbGet s.tokens eid - seats.length)) eid := by
    rw [hg1]; omega
  have hres2 : tbReserve
        (kvSet s.tokens (tbKey eid) (tbGet s.tokens eid - seats.length)) eid
        (seats.length : Int)
      = (true, kvSet (kvSet s.tokens (tbKey eid) (tbGet s.tokens eid - seats.length))
          (tbKey eid)
          (tbGet (kvSet s.tokens (tbKey eid) (tbGet s.tokens eid - seats.length)) eid
            - seats.length)) := by
    simp [tbReserve, htok2]
  have hev2 : eventsGet (createPending s.db uid eid (some k1) seats b1).fst eid
      = some ev := hev
  have h2 : handlerBook ({ s with
        db := (createPending s.db uid eid (some k1) seats b1).fst,
        tokens := kvSet s.tokens (tbKey eid) (tbGet s.tokens eid - seats.length),
        kafka := s.kafka ++
          [{ key := eid, typ := "finalize_booking", bookingId := b1,
             eventId := eid, userId := uid, seats := seats,
             idempotencyKey := some k1 }] } : Sys) now eid uid k2 seats b2 w2
      = ({ db := (createPending (createPending s.db uid eid (some k1) seats b1).fst
              uid eid (some k2) seats b2).fst,
           tokens := kvSet (kvSet s.tokens (tbKey eid)
               (tbGet s.tokens eid - seats.length)) (tbKey eid)
               (tbGet (kvSet s.tokens (tbKey eid)
                 (tbGet s.tokens eid - seats.length)) eid - seats.length),
           timeouts := s.timeouts,
           kafka := s.kafka ++
             [{ key := eid, typ := "finalize_booking", bookingId := b1,
                eventId := eid, userId := uid, seats := seats,
                idempotencyKey := some k1 }] ++
             [{ key := eid, typ := "finalize_booking", bookingId := b2,
                eventId := eid, userId := uid, seats := seats,
                idempotencyKey := some k2 }],
           emails := s.emails },
         BookResult.ok (CreateResult.pending b2)) := by
    simp only [createPending] at hev2 hf2b
    simp only [handlerBook, huid2, heid2, Bool.false_eq_true, if_false, ite_false,
      svcCreate, hev2, hne, hmax2, ne_eq, hk2, hf2b, hres2, createPending, ite_self,
      if_true, ite_true, not_false_iff]
  rw [h1, h2]
  refine ⟨rfl, rfl, rfl, ?_, ?_, ?_⟩
  · simp [hkk]
  · show (kvGet (kvSet _ _ _) _).getD 0 = _
    rw [kvGet_kvSet_self]
    simp [tbRemaining, tbGet]
  · show (kvGet (kvSet _ _ _) _).getD 0 = _
    rw [kvGet_kvSet_self]
    rw [hg1]
    simp only [tbRemaining, tbGet, Option.getD_some]
    omega

/-- Witness for C10 on `sysC10ex` with fresh keys `"ka"`, `"kb"`. -/
theorem C10_handler_fresh_key_witness :
    getByIdempotency sysC10ex.db "ka" = none ∧
    getByIdempotency sysC10ex.db "kb" = none ∧
    2 * ((["s1"] : List String).length : Int) ≤ tbGet sysC10ex.tokens "E" ∧
    ((handlerBook sysC10ex 0 "E" "U1" "ka" ["s1"] "B1" "W1").snd
        = BookResult.ok (CreateResult.pending "B1") ∧
     (handlerBook (handlerBook sysC10ex 0 "E" "U1" "ka" ["s1"] "B1" "W1").fst
         0 "E" "U1" "kb" ["s1"] "B2" "W2").snd
        = BookResult.ok (CreateResult.pending "B2") ∧
     (handlerBook (handlerBook sysC10ex 0 "E" "U1" "ka" ["s1"] "B1" "W1").fst
         0 "E" "U1" "kb" ["s1"] "B2" "W2").fst.db.bookings
        = sysC10ex.db.bookings ++
            [{ id := "B1", userId := "U1", eventId := "E", status := "pending",
               seats := ["s1"], idempotencyKey := some "ka", amountPaid := 0,
               paymentStatus := "pending" }] ++
            [{ id := "B2", userId := "U1", eventId := "E", status := "pending",
               seats := ["s1"], idempotencyKey := some "kb", amountPaid := 0,
               paymentStatus := "pending" }] ∧
     ({ id := "B1", userId := "U1", eventId := "E", status := "pending",
        seats := ["s1"], idempotencyKey := some "ka", amountPaid := 0,
        paymentStatus := "pending" } : Booking)
       ≠ { id := "B2", userId := "U1", eventId := "E", status := "pending",
           seats := ["s1"], idempotencyKey := some "kb", amountPaid := 0,
           paymentStatus := "pending" } ∧
     tbRemaining (handlerBook sysC10ex 0 "E" "U1" "ka" ["s1"] "B1" "W1").fst.tokens "E"
        = tbRemaining sysC10ex.tokens "E" - (["s1"] : List String).length ∧
     tbRemaining (handlerBook (handlerBook sysC10ex 0 "E" "U1" "ka" ["s1"] "B1" "W1").fst
         0 "E" "U1" "kb" ["s1"] "B2" "W2").fst.tokens "E"
        = tbRemaining sysC10ex.tokens "E" - 2 * (["s1"] : List String).length) :=
  ⟨by decide, by decide, by decide,
   C10_handler_fresh_key sysC10ex 0 "E" "U1" "ka" "kb" ["s1"] "B1" "W1" "B2" "W2" evE
     (by decide) (by decide) (by decide) (by decide) (by decide) (by decide)
     (by decide) (by decide) (by decide) (by decide) (by decide)⟩

end Ticketing
